import Mathlib

/-!
Verification of the batch job-dependency orchestrator (`run-batch-pipeline.py`).

The orchestrator is embedded shallowly:

* Python strings become `Str := List Char`; the Python primitives the script
  uses (`str.replace`, `str.split`, `str.strip`, `str.splitlines`,
  `pathlib.Path.suffix`, `sorted`, ...) are re-implemented below as executable
  Lean functions with the CPython semantics actually exercised by the script.
* The filesystem, the clock, and the external processes (`prepare-orca.py`,
  `qsub`) are an explicit environment `Env`; every externally visible side
  effect of a run is recorded in an ordered `List Effect` trace.
* Paths are treated as already-absolute opaque strings: `Path.expanduser` and
  `Path.resolve` are the identity in this model, and `dir / name` is
  `joinPath`.
* Exceptions become the inductive `PipelineError`; the Python exception class
  raised by the source is kept in the constructor name.
-/

set_option autoImplicit false

namespace OrcaPipeline

/-- Python strings are modelled as lists of characters. -/
abbrev Str := List Char

/-- Path join `dir / name` of `pathlib`. -/
def joinPath (dir name : Str) : Str := dir ++ '/' :: name

/-- Strict lexicographic comparison of strings by code point, as CPython's
`<` on `str` behaves on the ASCII names used here. -/
def strLtB : Str → Str → Bool
  | [], [] => false
  | [], _ :: _ => true
  | _ :: _, [] => false
  | a :: as, b :: bs => if a < b then true else if a = b then strLtB as bs else false

/-- `a <= b` on strings, derived from `strLtB`. -/
def strLeB (a b : Str) : Bool := !strLtB b a

/-- One insertion step of a stable insertion sort. -/
def insertSorted (x : Str) : List Str → List Str
  | [] => [x]
  | y :: ys => if strLeB x y then x :: y :: ys else y :: insertSorted x ys

/-- Python's `sorted` on a list of strings (stable, ascending). -/
def sortStrs (l : List Str) : List Str := l.foldr insertSorted []

/-- Python's `str.split(sep)` for a one-character separator: the result is
never empty and the concatenation of the pieces interleaved with `sep` is the
input. -/
def pySplit (sep : Char) : Str → List Str
  | [] => [[]]
  | c :: rest =>
    if c = sep then [] :: pySplit sep rest
    else
      let r := pySplit sep rest
      (c :: r.headD []) :: r.tail

/-- `pySplit` never returns the empty list (Python's `split` never does). -/
theorem pySplit_ne_nil (sep : Char) : ∀ s : Str, pySplit sep s ≠ [] := by
  intro s
  cases s with
  | nil => simp [pySplit]
  | cons c rest => by_cases h : c = sep <;> simp [pySplit, h]

/-- `Path.name`: the last `/`-separated component of a path. -/
def lastComponent (p : Str) : Str := (pySplit '/' p).getLastD []

/-- Index of the last occurrence of `c` in `s` (Python's `str.rfind`). -/
def rfindIdx (c : Char) (s : Str) : Option Nat :=
  match s.reverse.findIdx? (· == c) with
  | none => none
  | some j => some (s.length - 1 - j)

/-- `Path.parent` of a path string: everything before the last `/`, or `.`
when there is none (CPython returns `Path('.')` there; trailing slashes do
not occur in this model). -/
def parentDir (p : Str) : Str :=
  match rfindIdx '/' p with
  | none => ['.']
  | some i => p.take i

/-- `Path.suffix` of a file name, per CPython: the substring from the last
dot, provided that dot is neither the first nor the last character. -/
def pySuffix (name : Str) : Str :=
  match rfindIdx '.' name with
  | none => []
  | some i => if 0 < i ∧ i + 1 < name.length then name.drop i else []

/-- ASCII lowercasing of a string (`str.lower` restricted to the ASCII
file-name suffixes the script compares). -/
def strLower (s : Str) : Str := s.map Char.toLower

/-- The whitespace set of Python's default `str.strip` (the ASCII part,
which is all the scheduler output exercises). -/
def isPySpace (c : Char) : Bool :=
  c = ' ' || c = '\t' || c = '\n' || c = '\x0d' || c = '\x0b' || c = '\x0c'

/-- Python's `str.strip()` with no argument. -/
def pyStrip (s : Str) : Str :=
  ((s.dropWhile isPySpace).reverse.dropWhile isPySpace).reverse

/-- Line-break characters recognised by Python's `str.splitlines`. -/
def isLineBreak (c : Char) : Bool :=
  c = '\n' || c = '\x0d' || c = '\x0b' || c = '\x0c' ||
  c = '\x1c' || c = '\x1d' || c = '\x1e' || c = '\x85' || c = '\u2028' || c = '\u2029'

/-- Worker for `pySplitlines`; `cur` is the reversed current line. -/
def splitlinesGo (cur : Str) : Str → List Str
  | [] => if cur.isEmpty then [] else [cur.reverse]
  | '\x0d' :: '\n' :: rest => cur.reverse :: splitlinesGo [] rest
  | c :: rest =>
    if isLineBreak c then cur.reverse :: splitlinesGo [] rest
    else splitlinesGo (c :: cur) rest

/-- Python's `str.splitlines()`: terminators are dropped, `\r\n` counts as a
single break, and a trailing terminator does not produce a final empty
line. -/
def pySplitlines (s : Str) : List Str := splitlinesGo [] s

/-- Decimal rendering of a Python `int` (`str(i)`). -/
def intToStr (i : Int) : Str :=
  match i with
  | .ofNat n => (toString n).data
  | .negSucc n => '-' :: (toString (n + 1)).data

/-- Fuel-driven worker for `pyReplace`; with fuel at least the length of the
subject string it performs Python's left-to-right, non-overlapping
`str.replace`. -/
def replaceGo (old new : Str) : Nat → Str → Str
  | 0, s => s
  | _ + 1, [] => []
  | fuel + 1, c :: rest =>
    if !old.isEmpty && old.isPrefixOf (c :: rest) then
      new ++ replaceGo old new fuel ((c :: rest).drop old.length)
    else
      c :: replaceGo old new fuel rest

/-- Python's `str.replace(old, new)` for the non-empty `old` patterns the
script uses (for empty `old` this model is the identity; the source never
calls it that way). -/
def pyReplace (s old new : Str) : Str := replaceGo old new s.length s

/-- Does `pat` occur as a contiguous substring of `s`?  (`pat in s`.) -/
def hasSub (s pat : Str) : Bool :=
  match s with
  | [] => pat.isEmpty
  | c :: rest => pat.isPrefixOf (c :: rest) || hasSub rest pat

/-- A replace whose pattern does not occur leaves the string unchanged,
whatever the fuel. -/
theorem replaceGo_of_not_hasSub (old new : Str) :
    ∀ (fuel : Nat) (s : Str), hasSub s old = false → replaceGo old new fuel s = s := by
  intro fuel
  induction fuel with
  | zero => intro s _; rfl
  | succ n ih =>
    intro s h
    cases s with
    | nil => rfl
    | cons c rest =>
      have h' := h
      simp only [hasSub, Bool.or_eq_false_iff] at h'
      simp [replaceGo, h'.1, ih rest h'.2]

/-- `pyReplace` is the identity when the pattern does not occur. -/
theorem pyReplace_of_not_hasSub (s old new : Str) (h : hasSub s old = false) :
    pyReplace s old new = s :=
  replaceGo_of_not_hasSub old new s.length s h

/-! ## Errors, data model, effects and environment -/

/-- The exceptions `run-batch-pipeline.py` can raise, by Python class.  The
spec's error taxonomy maps onto these: `ValidationError` is the
`SystemExit` of the composition check, `SchedulerParseError` is the
`ValueError` of job-id parsing, `SchedulerSubmitError` is the
`RuntimeError` of a failing `qsub`, and `NotFoundError` /
`MissingRunDirError` / `MissingScriptError` / `TemplateNotFoundError` are
all `FileNotFoundError`. -/
inductive PipelineError where
  | systemExit (msg : Str)
  | runtimeError (msg : Str)
  | fileNotFound (msg : Str)
  | valueError (msg : Str)
deriving DecidableEq

deriving instance DecidableEq for Except

/-- The `JobRecord` dataclass (one per work item). -/
structure JobRecord where
  run_id : Str
  run_dir : Str
  orca_script : Str
  orca_job_id : Str
  orca_submitted_utc : Str
  corvus_wrapper_script : Str
  corvus_job_id : Str
  corvus_submitted_utc : Str
deriving DecidableEq

/-- The `BatchState` dataclass (whole-batch plan and outcome). -/
structure BatchState where
  created_utc : Str
  input_path : Str
  output_root : Str
  download_destination : Str
  cys : Int
  his : Int
  h_only : Bool
  postprocess_job_id : Option Str
  runs : List JobRecord
deriving DecidableEq

/-- Externally visible side effects of a run, in the order they happen.
`mkdirParents` is `Path.mkdir(parents=True, exist_ok=True)`, `procRun` a
`subprocess.run` of a non-scheduler command, `qsubCall` an invocation of the
scheduler binary (with the script *name*, the dependency id list of its
`depend=afterok:` option, and the working directory), `fileWrite` a
`write_text` and `chmod` a `Path.chmod`. -/
inductive Effect where
  | mkdirParents (path : Str)
  | procRun (cmd : List Str) (cwd : Option Str)
  | qsubCall (script : Str) (deps : List Str) (cwd : Str)
  | fileWrite (path : Str) (content : Str)
  | chmod (path : Str) (mode : Nat)
deriving DecidableEq

/-- The parsed command-line arguments of `run-batch-pipeline.py`. -/
structure Args where
  path : Str
  cys : Int
  his : Int
  out_dir : Str
  H : Bool
  download_destination : Str
  skip_extract : Bool
  skip_process_feff : Bool
  skip_prepare_download : Bool
  state_file : Option Str
  no_submit : Bool
deriving DecidableEq

/-- The world the script runs against: a static filesystem snapshot, the
PATH, the two template files next to the script, the behaviour of the
`prepare-orca.py` subprocess, the behaviour of the `k`-th `qsub` call
(returncode, stdout, stderr), and the UTC clock by call index. -/
structure Env where
  pathExists : Str → Bool
  pathIsFile : Str → Bool
  dirListing : Str → List Str
  isDir : Str → Bool
  runDirListing : Str → List Str
  whichOk : Str → Bool
  corvusTemplate : Option Str
  postTemplate : Option Str
  prepareResult : Int × Str × Str
  qsubResult : Nat → Int × Str × Str
  timeAt : Nat → Str

/-! ## Scheduler-output parsing (`JOB_ID_RE`, `_parse_qsub_job_id`) -/

/-- `JOB_ID_RE.match(line)` for `JOB_ID_RE = r"(?P<id>\d+)(?:\.[^\s]+)?"`:
`re.match` anchors at the start only, so the line matches exactly when it
begins with a digit, and the `id` group is the maximal run of leading
digits (the optional `.suffix` group never shrinks it). -/
def jobIdMatch (line : Str) : Option Str :=
  let digits := line.takeWhile Char.isDigit
  if digits.isEmpty then none else some digits

/-- The line loop of `_parse_qsub_job_id`: strip each line, skip blank ones,
return the regex group of the first line that matches, and raise
`ValueError` when no line does. -/
def parseLoop (orig : Str) : List Str → Except PipelineError Str
  | [] =>
    .error (.valueError ("Unable to parse qsub job id from output: ".data ++ orig))
  | l :: rest =>
    let line := pyStrip l
    if line.isEmpty then parseLoop orig rest
    else
      match jobIdMatch line with
      | some id => .ok id
      | none => parseLoop orig rest

/-- `_parse_qsub_job_id(stdout_text)`. -/
def parseQsubJobId (stdout_text : Str) : Except PipelineError Str :=
  parseLoop stdout_text (pySplitlines stdout_text)

/-! ## Work-item discovery (`_discover_xyz_files`, `_run_id_from_xyz`) -/

/-- `Path.glob("*.xyz")` membership: a directory entry matches when it ends
in `.xyz` and, per `pathlib`, is not a hidden file (patterns not starting
with a dot never match names starting with one). -/
def globXyz (name : Str) : Bool :=
  !(['.'].isPrefixOf name) && ".xyz".data.isSuffixOf name

/-- `_discover_xyz_files`, returning the ordered list of input paths (the
second component of the Python tuple is never used by `main`).  Sorting the
names and prefixing the directory is order-equivalent to CPython's
`sorted(path.glob("*.xyz"))`, which sorts the full paths sharing the same
directory prefix. -/
def discoverXyz (env : Env) (path_arg : Str) : Except PipelineError (List Str) :=
  if !env.pathExists path_arg then
    .error (.fileNotFound ("Path not found: ".data ++ path_arg))
  else if env.pathIsFile path_arg then
    if strLower (pySuffix (lastComponent path_arg)) = ".xyz".data then .ok [path_arg]
    else .error (.valueError ("Expected an XYZ file, got: ".data ++ path_arg))
  else
    let xyz_files := sortStrs ((env.dirListing path_arg).filter globXyz)
    if xyz_files.isEmpty then
      .error (.valueError ("No .xyz files found in directory: ".data ++ path_arg))
    else
      .ok (xyz_files.map (joinPath path_arg))

/-- `_run_id_from_xyz`: `xyz_file.name.split(".")[0].split("_")[0]`, with
`-H-only` appended in variant mode. -/
def runIdFromXyz (xyzName : Str) (h_only : Bool) : Str :=
  let base := ((pySplit '_' ((pySplit '.' xyzName).headD [])).headD [])
  if h_only then base ++ "-H-only".data else base

/-! ## Locating the stage-A script (`main`, per-item step 2) -/

/-- `run_dir.glob("generated-*-orca.script")` membership: prefix
`generated-`, suffix `-orca.script`, with the `*` matching the (possibly
empty) middle, so the name is at least as long as both fixed parts
together. -/
def globOrcaMatch (name : Str) : Bool :=
  "generated-".data.isPrefixOf name && "-orca.script".data.isSuffixOf name &&
    22 ≤ name.length

/-- The stage-A script location logic of `main`: prefer the exact expected
name, otherwise fall back to a unique `generated-*-orca.script` glob match;
zero or several matches raise one and the same `FileNotFoundError`. -/
def locateOrcaScript (files : List Str) (run_dir run_id : Str) :
    Except PipelineError Str :=
  let exact := "generated-".data ++ run_id ++ "-orca.script".data
  if files.contains exact then .ok (joinPath run_dir exact)
  else
    let ms := sortStrs (files.filter globOrcaMatch)
    if ms.length = 1 then .ok (joinPath run_dir (ms.headD []))
    else
      .error (.fileNotFound
        ("Could not locate generated ORCA qsub script in ".data ++ run_dir))

/-! ## Script materialization -/

/-- The trailing-newline step shared by both script writers:
`script if script.endswith("\n") else script + "\n"` — append a newline
only when one is not already there. -/
def normalizeTrailingNewline (s : Str) : Str :=
  if s.getLast? = some '\n' then s else s ++ ['\n']

/-- Does `s` end with exactly one `\n` (a newline whose predecessor, if
any, is not itself a newline)?  Used to state the spec's
"exactly one trailing newline". -/
def endsWithExactlyOneNewline (s : Str) : Bool :=
  s.getLast? = some '\n' && !(s.dropLast.getLast? = some '\n')

/-- The text produced by `_write_corvus_wrapper_script`: three sequential
`str.replace` substitutions followed by trailing-newline normalization. -/
def corvusWrapperContent (tmpl run_dir run_id prep_corvus : Str) : Str :=
  let s1 := pyReplace tmpl "[RUN_DIR]".data run_dir
  let s2 := pyReplace s1 "[RUN_ID]".data run_id
  let s3 := pyReplace s2 "[PREP_CORVUS]".data prep_corvus
  normalizeTrailingNewline s3

/-- `_write_corvus_wrapper_script`: fails when the template next to the
script is missing, otherwise writes the substituted text and sets mode
`0o755` (493). -/
def writeCorvusWrapperScript (tmpl : Option Str)
    (script_dir script_path run_dir run_id prep_corvus : Str) :
    List Effect × Except PipelineError Unit :=
  match tmpl with
  | none =>
    ([], .error (.fileNotFound
      ("Missing template: ".data ++ joinPath script_dir "corvus-wrapper-qsub.script".data)))
  | some t =>
    ([.fileWrite script_path (corvusWrapperContent t run_dir run_id prep_corvus),
      .chmod script_path 493], .ok ())

/-- The three sub-command strings of `_write_postprocess_script`, each a
real command line or the no-op `true` when skipped. -/
def extractCmdStr (script_dir output_root : Str) (skip : Bool) : Str :=
  if skip then "true".data
  else
    "python \"".data ++ joinPath script_dir "extract-orca-compute-times.py".data ++
    "\" \"".data ++ output_root ++ "\" --output-dir \"".data ++ output_root ++ "\"".data

/-- `process-feff-output.py` sub-command of the postprocess script. -/
def processFeffCmdStr (script_dir output_root : Str) (skip : Bool) : Str :=
  if skip then "true".data
  else
    "python \"".data ++ joinPath script_dir "process-feff-output.py".data ++
    "\" \"".data ++ output_root ++ "\" --recursive".data

/-- `prepare-files-for-download.py` sub-command of the postprocess script. -/
def prepareDownloadCmdStr (script_dir output_root download_destination : Str)
    (skip : Bool) : Str :=
  if skip then "true".data
  else
    "python \"".data ++ joinPath script_dir "prepare-files-for-download.py".data ++
    "\" \"".data ++ output_root ++ "\" -d \"".data ++ download_destination ++ "\"".data

/-- The text produced by `_write_postprocess_script`: five sequential
substitutions followed by trailing-newline normalization. -/
def postprocessContent (tmpl script_dir output_root download_destination : Str)
    (skip_extract skip_process_feff skip_prepare_download : Bool) : Str :=
  let s1 := pyReplace tmpl "[BATCH_NAME]".data (lastComponent output_root)
  let s2 := pyReplace s1 "[OUTPUT_ROOT]".data output_root
  let s3 := pyReplace s2 "[EXTRACT_CMD]".data (extractCmdStr script_dir output_root skip_extract)
  let s4 := pyReplace s3 "[PROCESS_FEFF_CMD]".data
    (processFeffCmdStr script_dir output_root skip_process_feff)
  let s5 := pyReplace s4 "[PREPARE_DOWNLOAD_CMD]".data
    (prepareDownloadCmdStr script_dir output_root download_destination skip_prepare_download)
  normalizeTrailingNewline s5

/-- `_write_postprocess_script`: template check, substitution, write, chmod
`0o755`. -/
def writePostprocessScript (tmpl : Option Str)
    (script_path script_dir output_root download_destination : Str)
    (skip_extract skip_process_feff skip_prepare_download : Bool) :
    List Effect × Except PipelineError Unit :=
  match tmpl with
  | none =>
    ([], .error (.fileNotFound
      ("Missing template: ".data ++ joinPath script_dir "postprocess-qsub.script".data)))
  | some t =>
    ([.fileWrite script_path
        (postprocessContent t script_dir output_root download_destination
          skip_extract skip_process_feff skip_prepare_download),
      .chmod script_path 493], .ok ())

/-- Is the owner-executable permission bit (0o100) set in `mode`? -/
def ownerExecutable (mode : Nat) : Bool := mode.testBit 6

/-! ## State serialization (`json.dumps(..., indent=2)` of the state dict) -/

/-- Lowercase hexadecimal digit. -/
def hexDigit (n : Nat) : Char :=
  if n < 10 then Char.ofNat (48 + n) else Char.ofNat (87 + n)

/-- Four lowercase hex digits. -/
def hex4 (n : Nat) : Str :=
  [hexDigit (n / 4096 % 16), hexDigit (n / 256 % 16), hexDigit (n / 16 % 16), hexDigit (n % 16)]

/-- A `\uXXXX` escape, using a surrogate pair beyond the BMP, as
`json.dumps` does with its default `ensure_ascii=True`. -/
def uEscape (c : Char) : Str :=
  let n := c.toNat
  if n ≤ 65535 then '\\' :: 'u' :: hex4 n
  else
    let m := n - 65536
    '\\' :: 'u' :: hex4 (55296 + m / 1024) ++ '\\' :: 'u' :: hex4 (56320 + m % 1024)

/-- Per-character JSON string escaping of `json.dumps` (default options):
quote, backslash and the short control escapes, `\uXXXX` for the other
control characters and for everything outside printable ASCII. -/
def jsonEscapeChar (c : Char) : Str :=
  if c = '"' then ['\\', '"']
  else if c = '\\' then ['\\', '\\']
  else if c = '\n' then ['\\', 'n']
  else if c = '\x0d' then ['\\', 'r']
  else if c = '\t' then ['\\', 't']
  else if c = '\x08' then ['\\', 'b']
  else if c = '\x0c' then ['\\', 'f']
  else if c.toNat < 32 || 126 < c.toNat then uEscape c
  else [c]

/-- A JSON string literal. -/
def jsonStr (s : Str) : Str :=
  '"' :: s.foldr (fun c acc => jsonEscapeChar c ++ acc) ['"']

/-- A JSON value for `str | None`. -/
def jsonOptStr : Option Str → Str
  | none => "null".data
  | some s => jsonStr s

/-- A JSON boolean. -/
def jsonBool (b : Bool) : Str := if b then "true".data else "false".data

/-- One `JobRecord` as rendered inside the `runs` array by
`json.dumps(..., indent=2)`: braces at indent 4, keys at indent 6, fields
in dataclass order. -/
def renderRecord (r : JobRecord) : Str :=
  "\x7b\n      \"run_id\": ".data ++ jsonStr r.run_id ++
  ",\n      \"run_dir\": ".data ++ jsonStr r.run_dir ++
  ",\n      \"orca_script\": ".data ++ jsonStr r.orca_script ++
  ",\n      \"orca_job_id\": ".data ++ jsonStr r.orca_job_id ++
  ",\n      \"orca_submitted_utc\": ".data ++ jsonStr r.orca_submitted_utc ++
  ",\n      \"corvus_wrapper_script\": ".data ++ jsonStr r.corvus_wrapper_script ++
  ",\n      \"corvus_job_id\": ".data ++ jsonStr r.corvus_job_id ++
  ",\n      \"corvus_submitted_utc\": ".data ++ jsonStr r.corvus_submitted_utc ++
  "\n    \x7d".data

/-- The `runs` list as rendered by `json.dumps(..., indent=2)`: `[]` when
empty, otherwise items at indent 4 separated by `,\n    ` and closed at
indent 2. -/
def renderRuns (rs : List JobRecord) : Str :=
  match rs with
  | [] => "[]".data
  | r :: rest =>
    "[\n    ".data ++
    (rest.foldl (fun acc x => acc ++ ",\n    ".data ++ renderRecord x) (renderRecord r)) ++
    "\n  ]".data

/-- `json.dumps({**asdict(state), "prepare_orca_stdout": ...,
"prepare_orca_stderr": ...}, indent=2)`: keys in insertion order (dataclass
fields first, then the two captured streams), two-space indentation. -/
def serializeState (s : BatchState) (prep_stdout prep_stderr : Str) : Str :=
  "\x7b\n  \"created_utc\": ".data ++ jsonStr s.created_utc ++
  ",\n  \"input_path\": ".data ++ jsonStr s.input_path ++
  ",\n  \"output_root\": ".data ++ jsonStr s.output_root ++
  ",\n  \"download_destination\": ".data ++ jsonStr s.download_destination ++
  ",\n  \"cys\": ".data ++ intToStr s.cys ++
  ",\n  \"his\": ".data ++ intToStr s.his ++
  ",\n  \"h_only\": ".data ++ jsonBool s.h_only ++
  ",\n  \"postprocess_job_id\": ".data ++ jsonOptStr s.postprocess_job_id ++
  ",\n  \"runs\": ".data ++ renderRuns s.runs ++
  ",\n  \"prepare_orca_stdout\": ".data ++ jsonStr prep_stdout ++
  ",\n  \"prepare_orca_stderr\": ".data ++ jsonStr prep_stderr ++
  "\n\x7d".data

/-! ## Scheduler client (`_submit_job`) and the per-item loop of `main` -/

/-- `_submit_job`: run `qsub` (recorded as a `qsubCall` effect with the
script *name*, the `afterok` dependency ids and the working directory),
raise `RuntimeError` on a nonzero exit status, otherwise parse the job id
from the captured stdout.  `q` indexes this scheduler invocation in
`Env.qsubResult`; the returned counter accounts for the call. -/
def submitJob (env : Env) (q : Nat) (script_path cwd : Str) (deps : List Str) :
    List Effect × Except PipelineError (Str × Nat) :=
  let res := env.qsubResult q
  let ev := Effect.qsubCall (lastComponent script_path) deps cwd
  if res.1 ≠ 0 then
    ([ev], .error (.runtimeError
      ("qsub failed for ".data ++ script_path ++ " (cwd=".data ++ cwd ++
       ")\nstdout:\n".data ++ res.2.1 ++ "\nstderr:\n".data ++ res.2.2)))
  else
    match parseQsubJobId res.2.1 with
    | .ok id => ([ev], .ok (id, q + 1))
    | .error e => ([ev], .error e)

/-- One iteration of the per-item loop in `main` (lines 289-330): derive the
run id and run directory, require the directory, locate the stage-A script,
materialize the stage-B wrapper, then either stamp the `NO_SUBMIT` sentinel
(plan-only) or submit stage A and the dependent stage B.  `t` and `q` index
the clock and scheduler calls; both advance by two per item. -/
def processItem (env : Env) (args : Args) (script_dir output_root prep_corvus : Str)
    (t q : Nat) (xyz : Str) :
    List Effect × Except PipelineError (JobRecord × Nat × Nat) :=
  let run_id := runIdFromXyz (lastComponent xyz) args.H
  let run_dir := joinPath output_root run_id
  if !env.isDir run_dir then
    ([], .error (.fileNotFound ("Expected run directory not found: ".data ++ run_dir)))
  else
    match locateOrcaScript (env.runDirListing run_dir) run_dir run_id with
    | .error e => ([], .error e)
    | .ok orca_script =>
      let corvus_wrapper :=
        joinPath run_dir ("generated-".data ++ run_id ++ "-corvus-wrapper.script".data)
      match writeCorvusWrapperScript env.corvusTemplate script_dir
        corvus_wrapper run_dir run_id prep_corvus with
      | (wEvs, .error e) => (wEvs, .error e)
      | (wEvs, .ok _) =>
        if args.no_submit then
          (wEvs, .ok
            ({ run_id := run_id, run_dir := run_dir, orca_script := orca_script,
               orca_job_id := "NO_SUBMIT".data, orca_submitted_utc := env.timeAt t,
               corvus_wrapper_script := corvus_wrapper,
               corvus_job_id := "NO_SUBMIT".data,
               corvus_submitted_utc := env.timeAt (t + 1) }, t + 2, q))
        else
          let tA := env.timeAt t
          match submitJob env q orca_script run_dir [] with
          | (evA, .error e) => (wEvs ++ evA, .error e)
          | (evA, .ok (idA, q1)) =>
            let tB := env.timeAt (t + 1)
            match submitJob env q1 corvus_wrapper run_dir [idA] with
            | (evB, .error e) => (wEvs ++ evA ++ evB, .error e)
            | (evB, .ok (idB, q2)) =>
              (wEvs ++ evA ++ evB, .ok
                ({ run_id := run_id, run_dir := run_dir, orca_script := orca_script,
                   orca_job_id := idA, orca_submitted_utc := tA,
                   corvus_wrapper_script := corvus_wrapper,
                   corvus_job_id := idB, corvus_submitted_utc := tB }, t + 2, q2))

/-- The whole per-item loop, aborting on the first failing item and
concatenating the effect traces of the items processed so far. -/
def processItems (env : Env) (args : Args) (script_dir output_root prep_corvus : Str) :
    List Str → Nat → Nat → List Effect × Except PipelineError (List JobRecord × Nat × Nat)
  | [], t, q => ([], .ok ([], t, q))
  | x :: xs, t, q =>
    match processItem env args script_dir output_root prep_corvus t q x with
    | (evs, .error e) => (evs, .error e)
    | (evs, .ok (rcd, t', q')) =>
      match processItems env args script_dir output_root prep_corvus xs t' q' with
      | (evs2, .error e) => (evs ++ evs2, .error e)
      | (evs2, .ok (rcds, t'', q'')) => (evs ++ evs2, .ok (rcd :: rcds, t'', q''))

/-! ## `main` -/

/-- The composition-count precondition of `main`: `cys + his` must equal 4,
checked before anything else happens. -/
def compositionCheck (cys his : Int) : Except PipelineError Unit :=
  if cys + his ≠ 4 then
    .error (.systemExit
      ("ERROR: cys + his must equal 4 (got ".data ++ intToStr (cys + his) ++ ")".data))
  else .ok ()

/-- The `prepare-orca.py` command line built by `main`. -/
def prepareOrcaCmd (script_dir : Str) (args : Args) : List Str :=
  ["python".data, joinPath script_dir "prepare-orca.py".data, args.path,
   "--cys".data, intToStr args.cys, "--his".data, intToStr args.his,
   "--out-dir".data, args.out_dir, "--dry-run".data] ++
  (if args.H then ["--H".data] else [])

/-- The batch postprocess script path under the output root. -/
def postScriptPath (output_root : Str) : Str :=
  joinPath output_root
    ("generated-postprocess-".data ++ lastComponent output_root ++ ".script".data)

/-- The state-file destination: the explicit `--state-file` when given,
otherwise `pipeline-state-<batch>.json` under the output root. -/
def stateFilePath (args : Args) : Str :=
  match args.state_file with
  | some p => p
  | none =>
    joinPath args.out_dir
      ("pipeline-state-".data ++ lastComponent args.out_dir ++ ".json".data)

/-- Everything `main` does after the composition check, with the effect
trace accumulated also on error paths.  A successful run returns the built
`BatchState`, the state-file path and the text written there.  The final
`write_text` does not create parent directories; its parent must exist —
the output root itself always does at that point, having been created by
the `mkdir` earlier in the same run, so only an explicit `--state-file`
under another directory is judged against the filesystem snapshot. -/
def pipelineValidated (env : Env) (script_dir : Str) (args : Args) :
    List Effect × Except PipelineError (BatchState × Str × Str) :=
  if !args.skip_process_feff && !env.whichOk "python".data then
    ([], .error (.runtimeError "Required executable not found in PATH: python".data))
  else if !args.no_submit && !env.whichOk "qsub".data then
    ([], .error (.runtimeError "Required executable not found in PATH: qsub".data))
  else
    let prepare_orca_py := joinPath script_dir "prepare-orca.py".data
    let prep_corvus := joinPath script_dir "prepare-corvus.py".data
    if !env.pathExists prepare_orca_py || !env.pathExists prep_corvus then
      ([], .error (.systemExit
        "ERROR: Missing prepare-orca.py or prepare-corvus.py next to this script".data))
    else
      let output_root := args.out_dir
      let ev1 := Effect.mkdirParents output_root
      let download_destination := args.download_destination
      match discoverXyz env args.path with
      | .error e => ([ev1], .error e)
      | .ok xyz_files =>
        let ev2 := Effect.procRun (prepareOrcaCmd script_dir args) none
        let prep := env.prepareResult
        if prep.1 ≠ 0 then
          ([ev1, ev2], .error (.runtimeError
            ("prepare-orca.py failed:\nstdout:\n".data ++ prep.2.1 ++
             "\nstderr:\n".data ++ prep.2.2)))
        else
          match processItems env args script_dir output_root prep_corvus xyz_files 0 0 with
          | (loopEvs, .error e) => ([ev1, ev2] ++ loopEvs, .error e)
          | (loopEvs, .ok (records, t, q)) =>
            let post_script := postScriptPath output_root
            match writePostprocessScript env.postTemplate
              post_script script_dir output_root download_destination
              args.skip_extract args.skip_process_feff args.skip_prepare_download with
            | (postEvs, .error e) => ([ev1, ev2] ++ loopEvs ++ postEvs, .error e)
            | (postEvs, .ok _) =>
              match (if args.no_submit then
                  (([], .ok ("NO_SUBMIT".data, q)) :
                    List Effect × Except PipelineError (Str × Nat))
                else
                  submitJob env q post_script output_root
                    (records.map (fun rcd => rcd.corvus_job_id))) with
              | (subEvs, .error e) => ([ev1, ev2] ++ loopEvs ++ postEvs ++ subEvs, .error e)
              | (subEvs, .ok (post_id, _)) =>
                let state : BatchState :=
                  { created_utc := env.timeAt t, input_path := args.path,
                    output_root := output_root,
                    download_destination := download_destination,
                    cys := args.cys, his := args.his, h_only := args.H,
                    postprocess_job_id := some post_id, runs := records }
                let sf := stateFilePath args
                let content := serializeState state prep.2.1 prep.2.2 ++ ['\n']
                if parentDir sf = output_root ∨ env.isDir (parentDir sf) = true then
                  ([ev1, ev2] ++ loopEvs ++ postEvs ++ subEvs ++
                     [Effect.fileWrite sf content], .ok (state, sf, content))
                else
                  ([ev1, ev2] ++ loopEvs ++ postEvs ++ subEvs,
                   .error (.fileNotFound
                     ("No such file or directory: ".data ++ sf)))

/-- `main()`: composition check first, then the rest of the run. -/
def pipelineMain (env : Env) (script_dir : Str) (args : Args) :
    List Effect × Except PipelineError (BatchState × Str × Str) :=
  match compositionCheck args.cys args.his with
  | .error e => ([], .error e)
  | .ok _ => pipelineValidated env script_dir args

/-! ## Views on a run's result -/

/-- The effect trace of a run. -/
def traceOf (r : List Effect × Except PipelineError (BatchState × Str × Str)) :
    List Effect := r.1

/-- Did the run succeed? -/
def isOkOutcome (r : List Effect × Except PipelineError (BatchState × Str × Str)) :
    Bool :=
  match r.2 with
  | .ok _ => true
  | .error _ => false

/-- The records of a successful run (empty on failure). -/
def runsOf (r : List Effect × Except PipelineError (BatchState × Str × Str)) :
    List JobRecord :=
  match r.2 with
  | .ok (s, _, _) => s.runs
  | .error _ => []

/-- The persisted `BatchState` of a successful run. -/
def stateOf (r : List Effect × Except PipelineError (BatchState × Str × Str)) :
    BatchState :=
  match r.2 with
  | .ok (s, _, _) => s
  | .error _ =>
    { created_utc := [], input_path := [], output_root := [],
      download_destination := [], cys := 0, his := 0, h_only := false,
      postprocess_job_id := none, runs := [] }

/-- The state-file path of a successful run. -/
def stateFileOf (r : List Effect × Except PipelineError (BatchState × Str × Str)) :
    Str :=
  match r.2 with
  | .ok (_, p, _) => p
  | .error _ => []

/-- The text written to the state file by a successful run. -/
def contentOf (r : List Effect × Except PipelineError (BatchState × Str × Str)) :
    Str :=
  match r.2 with
  | .ok (_, _, c) => c
  | .error _ => []

/-- Project a trace effect onto scheduler submissions:
`(script name, dependency ids, working directory)`. -/
def qsubView : Effect → Option (Str × List Str × Str)
  | .qsubCall s d c => some (s, d, c)
  | _ => none

/-- All scheduler submissions of a trace, in order. -/
def qsubCalls (tr : List Effect) : List (Str × List Str × Str) :=
  tr.filterMap qsubView

/-- The submission pairs the per-item loop is expected to produce: for each
record, its stage-A submission (no dependency) immediately followed by its
stage-B submission (depending on exactly the stage-A job id), both in the
item's run directory. -/
def itemQsubPairs (rs : List JobRecord) : List (Str × List Str × Str) :=
  rs.foldr
    (fun r acc =>
      (lastComponent r.orca_script, [], r.run_dir) ::
      (lastComponent r.corvus_wrapper_script, [r.orca_job_id], r.run_dir) :: acc)
    []

/-! ## C3: job-id parsing -/

/-- The spec's line shape `<leading-digits>[.<suffix>]`, read as covering
the whole line: leading digits, then either nothing or a dot followed by a
nonempty run of non-whitespace. -/
def shapeDigitsSuffix (line : Str) : Bool :=
  let d := line.takeWhile Char.isDigit
  let rest := line.drop d.length
  !d.isEmpty &&
    (rest.isEmpty ||
      (rest.headD ' ' = '.' && !(rest.drop 1).isEmpty &&
        (rest.drop 1).all (fun c => !isPySpace c)))

/-- The claim's reading of the parser (C3 as stated): take the first
non-blank line of stdout; it must have the shape
`<leading-digits>[.<suffix>]`, whose leading digits are returned; anything
else is a parse error. -/
def specFirstNonBlankParse (stdout : Str) : Except PipelineError Str :=
  match ((pySplitlines stdout).map pyStrip).filter (fun l => !l.isEmpty) with
  | [] => .error (.valueError "SchedulerParseError".data)
  | l :: _ =>
    if shapeDigitsSuffix l then .ok (l.takeWhile Char.isDigit)
    else .error (.valueError "SchedulerParseError".data)

/-- The amended reading of the parser: scan the stripped lines in order and
return the maximal run of leading digits of the first line that begins with
a digit (blank lines and lines without a leading digit are skipped); fail
only when no line begins with a digit. -/
def amendedParse (stdout : Str) : Except PipelineError Str :=
  match ((pySplitlines stdout).map pyStrip).find?
      (fun l => !(l.takeWhile Char.isDigit).isEmpty) with
  | some l => .ok (l.takeWhile Char.isDigit)
  | none =>
    .error (.valueError ("Unable to parse qsub job id from output: ".data ++ stdout))

/-- The parser's line loop agrees with the find-first-digit-leading-line
reading on every line list. -/
theorem parseLoop_eq_find (orig : Str) : ∀ ls : List Str,
    parseLoop orig ls =
      (match (ls.map pyStrip).find? (fun l => !(l.takeWhile Char.isDigit).isEmpty) with
       | some l => .ok (l.takeWhile Char.isDigit)
       | none =>
         .error (.valueError ("Unable to parse qsub job id from output: ".data ++ orig))) := by
  intro ls
  induction ls with
  | nil => rfl
  | cons l rest ih =>
    simp only [parseLoop, List.map_cons, List.find?]
    by_cases hb : (pyStrip l).isEmpty
    · have hnil : pyStrip l = [] := by
        cases hx : pyStrip l
        · rfl
        · rw [hx] at hb; simp [List.isEmpty] at hb
      rw [if_pos hb, ih, hnil]
      simp
    · rw [if_neg hb]
      cases hm : jobIdMatch (pyStrip l) with
      | none =>
        have hdig : ((pyStrip l).takeWhile Char.isDigit).isEmpty = true := by
          by_contra hc
          simp only [jobIdMatch] at hm
          rw [if_neg (by simpa using hc)] at hm
          exact Option.noConfusion hm
        rw [hdig]
        simpa using ih
      | some d =>
        have hdig : (!((pyStrip l).takeWhile Char.isDigit).isEmpty) = true := by
          simp only [jobIdMatch] at hm
          by_cases hc : ((pyStrip l).takeWhile Char.isDigit).isEmpty
          · rw [if_pos hc] at hm; exact Option.noConfusion hm
          · simpa using hc
        have hd : d = (pyStrip l).takeWhile Char.isDigit := by
          simp only [jobIdMatch] at hm
          rw [if_neg (by simpa using hdig)] at hm
          exact (Option.some.inj hm).symm
        rw [hdig, hd]

/-- C3 (amended): on zero exit status the parser scans stdout lines in
order and returns the maximal run of leading digits of the first line that
(after stripping) begins with a digit; blank lines and lines without a
leading digit are skipped, text after the digits is arbitrary, and it
raises the parse `ValueError` exactly when no line begins with a digit.
`"10345.headnode\n"` parses to `"10345"`; output with no digit-leading line
raises the error. -/
theorem c3_parse_first_digit_line :
    (∀ stdout : Str, parseQsubJobId stdout = amendedParse stdout) ∧
    parseQsubJobId "10345.headnode\n".data = .ok "10345".data ∧
    parseQsubJobId "qsub: submission failed\n".data =
      .error (.valueError
        "Unable to parse qsub job id from output: qsub: submission failed\n".data) := by
  refine ⟨fun stdout => ?_, by decide, by decide⟩
  simpa [parseQsubJobId, amendedParse] using
    parseLoop_eq_find stdout (pySplitlines stdout)

/-- C3 counterexample: on stdout `"abc\n123xyz\n"` the first non-blank line
is `"abc"`, which does not have the claimed shape, and the line the code
does accept, `"123xyz"`, does not have it either — yet parsing succeeds
with `"123"` where the claim requires a `SchedulerParseError`. -/
theorem c3_counterexample :
    parseQsubJobId "abc\n123xyz\n".data = .ok "123".data ∧
    (specFirstNonBlankParse "abc\n123xyz\n".data).isOk = false ∧
    (((pySplitlines "abc\n123xyz\n".data).map pyStrip).filter
        (fun l => !l.isEmpty)).headD [] = "abc".data ∧
    shapeDigitsSuffix "123xyz".data = false := by decide

/-! ## C8: identifier derivation -/

/-- The head of a Python `split` is the prefix before the first separator. -/
theorem pySplit_headD (sep : Char) : ∀ s : Str,
    (pySplit sep s).headD [] = s.takeWhile (fun c => !(c = sep)) := by
  intro s
  induction s with
  | nil => rfl
  | cons c rest ih =>
    by_cases h : c = sep
    · simp [pySplit, h, List.takeWhile_cons]
    · cases hr : pySplit sep rest with
      | nil => exact absurd hr (pySplit_ne_nil sep rest)
      | cons h0 tl =>
        rw [hr] at ih
        simp only [List.headD] at ih
        simp [pySplit, h, hr, List.takeWhile_cons, List.headD, ih]

/-- A `takeWhile` whose predicate holds throughout is the identity. -/
theorem takeWhile_of_all (p : Char → Bool) : ∀ s : Str,
    s.all p = true → s.takeWhile p = s := by
  intro s
  induction s with
  | nil => intro _; rfl
  | cons x xs ih =>
    intro h
    rw [List.all_cons, Bool.and_eq_true] at h
    rw [List.takeWhile_cons_of_pos h.1, ih h.2]

/-- `takeWhile` across an append: all of the left part if it satisfies the
predicate throughout, otherwise its own `takeWhile`. -/
theorem takeWhileAppend (p : Char → Bool) : ∀ a b : Str,
    (a ++ b).takeWhile p =
      if a.all p then a ++ b.takeWhile p else a.takeWhile p := by
  intro a b
  induction a with
  | nil => simp
  | cons x xs ih =>
    by_cases hx : p x = true
    · rw [List.cons_append, List.takeWhile_cons_of_pos hx, ih, List.all_cons, hx,
        Bool.true_and]
      by_cases hall : xs.all p = true
      · rw [if_pos hall, if_pos hall, List.cons_append]
      · rw [if_neg hall, if_neg hall, List.takeWhile_cons_of_pos hx]
    · have hx' : ¬ p x := by simpa using hx
      rw [List.cons_append, List.takeWhile_cons_of_neg hx', List.all_cons,
        List.takeWhile_cons_of_neg hx']
      have : (p x && xs.all p) = false := by
        simp [show p x = false by simpa using hx]
      rw [this]
      simp

/-- The derived id is the prefix of the name before the first `.` and,
within that, before the first `_` (plus the fixed suffix in variant
mode). -/
theorem runIdFromXyz_eq_takeWhile (name : Str) (h_only : Bool) :
    runIdFromXyz name h_only =
      (if h_only then
        ((name.takeWhile (fun c => !(c = '.'))).takeWhile (fun c => !(c = '_')))
          ++ "-H-only".data
       else
        (name.takeWhile (fun c => !(c = '.'))).takeWhile (fun c => !(c = '_'))) := by
  simp only [runIdFromXyz, pySplit_headD]

/-- C8: identifier derivation is a pure function of the file name and the
variant flag; it keeps the segment of the name before the first period and
first underscore, appending `-H-only` when the flag is set; names differing
only after a first period (their extension) or only after a first
underscore (their suffix) derive equal ids. -/
theorem c8_run_id_pure_function :
    (∀ (n1 n2 : Str) (f1 f2 : Bool),
      n1 = n2 → f1 = f2 → runIdFromXyz n1 f1 = runIdFromXyz n2 f2) ∧
    (∀ (name : Str) (f : Bool),
      runIdFromXyz name f =
        (if f then
          ((name.takeWhile (fun c => !(c = '.'))).takeWhile (fun c => !(c = '_')))
            ++ "-H-only".data
         else
          (name.takeWhile (fun c => !(c = '.'))).takeWhile (fun c => !(c = '_')))) ∧
    (∀ (s e1 e2 : Str) (f : Bool),
      runIdFromXyz (s ++ '.' :: e1) f = runIdFromXyz (s ++ '.' :: e2) f) ∧
    (∀ (s t1 t2 : Str) (f : Bool),
      runIdFromXyz (s ++ '_' :: t1) f = runIdFromXyz (s ++ '_' :: t2) f) := by
  have hdot : ∀ (s e : Str),
      (s ++ '.' :: e).takeWhile (fun c => !(c = '.')) =
        (if s.all (fun c => !(c = '.')) then s else s.takeWhile (fun c => !(c = '.'))) := by
    intro s e
    rw [takeWhileAppend, List.takeWhile_cons_of_neg (by simp)]
    by_cases hall : s.all (fun c => !(c = '.')) = true
    · rw [if_pos hall, if_pos hall, List.append_nil]
    · rw [if_neg hall, if_neg hall]
  have hund : ∀ (s t : Str),
      ((s ++ '_' :: t).takeWhile (fun c => !(c = '.'))).takeWhile (fun c => !(c = '_')) =
        (if s.all (fun c => !(c = '.')) then s.takeWhile (fun c => !(c = '_'))
         else (s.takeWhile (fun c => !(c = '.'))).takeWhile (fun c => !(c = '_'))) := by
    intro s t
    rw [takeWhileAppend]
    by_cases hall : s.all (fun c => !(c = '.')) = true
    · rw [if_pos hall, if_pos hall,
        List.takeWhile_cons_of_pos (p := fun c => !(c = '.')) (by simp),
        takeWhileAppend, List.takeWhile_cons_of_neg (by simp)]
      by_cases hall2 : s.all (fun c => !(c = '_')) = true
      · rw [if_pos hall2, List.append_nil, takeWhile_of_all _ s hall2]
      · rw [if_neg hall2]
    · rw [if_neg hall, if_neg hall]
  refine ⟨fun n1 n2 f1 f2 hn hf => by rw [hn, hf], runIdFromXyz_eq_takeWhile, ?_, ?_⟩
  · intro s e1 e2 f
    rw [runIdFromXyz_eq_takeWhile, runIdFromXyz_eq_takeWhile, hdot s e1, hdot s e2]
  · intro s t1 t2 f
    rw [runIdFromXyz_eq_takeWhile, runIdFromXyz_eq_takeWhile, hund s t1, hund s t2]

/-- C8 witness: the purity clause applied at a concrete input, plus the
concrete collisions the claim describes (`a_1.xyz`, `a_1.txt` and `a_2.xyz`
all derive the id `a`). -/
theorem c8_witness :
    runIdFromXyz "a_1.xyz".data false = runIdFromXyz "a_1.xyz".data false ∧
    runIdFromXyz "a_1.xyz".data false = "a".data ∧
    runIdFromXyz "a_1.txt".data false = "a".data ∧
    runIdFromXyz "a_2.xyz".data false = "a".data :=
  ⟨c8_run_id_pure_function.1 "a_1.xyz".data "a_1.xyz".data false false rfl rfl,
   by decide, by decide, by decide⟩

/-! ## C4: script materialization -/

/-- Normalization always produces a text ending in a newline. -/
theorem normalize_getLast (s : Str) :
    (normalizeTrailingNewline s).getLast? = some '\n' := by
  unfold normalizeTrailingNewline
  by_cases h : s.getLast? = some '\n'
  · rw [if_pos h]; exact h
  · rw [if_neg h, List.getLast?_concat]

/-- C4 (amended): materialization substitutes each placeholder token in
turn and ensures the output ends with **at least** one trailing newline —
one is appended only when the template text does not already end with a
newline, so existing trailing newlines are preserved; a template containing
no placeholder from the map passes through except for this normalization;
the written file gets mode `0o755`, whose owner-executable bit is set. -/
theorem c4_materialization (tmpl rd ri pc spth sd por dd : Str)
    (se sf sp : Bool) :
    (corvusWrapperContent tmpl rd ri pc).getLast? = some '\n' ∧
    (postprocessContent tmpl sd por dd se sf sp).getLast? = some '\n' ∧
    writeCorvusWrapperScript (some tmpl) sd spth rd ri pc =
      ([.fileWrite spth (corvusWrapperContent tmpl rd ri pc), .chmod spth 493], .ok ()) ∧
    ownerExecutable 493 = true ∧
    (hasSub tmpl "[RUN_DIR]".data = false →
     hasSub tmpl "[RUN_ID]".data = false →
     hasSub tmpl "[PREP_CORVUS]".data = false →
     corvusWrapperContent tmpl rd ri pc = normalizeTrailingNewline tmpl) ∧
    (hasSub tmpl "[BATCH_NAME]".data = false →
     hasSub tmpl "[OUTPUT_ROOT]".data = false →
     hasSub tmpl "[EXTRACT_CMD]".data = false →
     hasSub tmpl "[PROCESS_FEFF_CMD]".data = false →
     hasSub tmpl "[PREPARE_DOWNLOAD_CMD]".data = false →
     postprocessContent tmpl sd por dd se sf sp = normalizeTrailingNewline tmpl) := by
  refine ⟨?_, ?_, rfl, by decide, ?_, ?_⟩
  · simp only [corvusWrapperContent]
    exact normalize_getLast _
  · simp only [postprocessContent]
    exact normalize_getLast _
  · intro h1 h2 h3
    simp only [corvusWrapperContent]
    rw [pyReplace_of_not_hasSub _ _ _ h1, pyReplace_of_not_hasSub _ _ _ h2,
      pyReplace_of_not_hasSub _ _ _ h3]
  · intro h1 h2 h3 h4 h5
    simp only [postprocessContent]
    rw [pyReplace_of_not_hasSub _ _ _ h1, pyReplace_of_not_hasSub _ _ _ h2,
      pyReplace_of_not_hasSub _ _ _ h3, pyReplace_of_not_hasSub _ _ _ h4,
      pyReplace_of_not_hasSub _ _ _ h5]

/-- C4 witness: a placeholder-free template without a trailing newline
passes through with exactly the normalization step. -/
theorem c4_witness :
    hasSub "#!/bin/sh\necho ok".data "[RUN_DIR]".data = false ∧
    hasSub "#!/bin/sh\necho ok".data "[RUN_ID]".data = false ∧
    hasSub "#!/bin/sh\necho ok".data "[PREP_CORVUS]".data = false ∧
    corvusWrapperContent "#!/bin/sh\necho ok".data "d".data "i".data "p".data =
      normalizeTrailingNewline "#!/bin/sh\necho ok".data ∧
    corvusWrapperContent "#!/bin/sh\necho ok".data "d".data "i".data "p".data =
      "#!/bin/sh\necho ok\n".data :=
  ⟨by decide, by decide, by decide,
   (c4_materialization "#!/bin/sh\necho ok".data "d".data "i".data "p".data
      "s".data "sd".data "o".data "dl".data false false false).2.2.2.2.1
     (by decide) (by decide) (by decide),
   by decide⟩

/-- C4 counterexample: on a placeholder-free template that already ends in
two newlines the written text keeps both, so it does not end with exactly
one trailing newline as the claim states. -/
theorem c4_counterexample :
    corvusWrapperContent "echo hi\n\n".data "d".data "i".data "p".data =
      "echo hi\n\n".data ∧
    endsWithExactlyOneNewline
      (corvusWrapperContent "echo hi\n\n".data "d".data "i".data "p".data) = false ∧
    hasSub "echo hi\n\n".data "[RUN_DIR]".data = false ∧
    hasSub "echo hi\n\n".data "[RUN_ID]".data = false ∧
    hasSub "echo hi\n\n".data "[PREP_CORVUS]".data = false := by decide

/-! ## C5: locating the stage-A script -/

/-- C5 (amended): the exact expected name is preferred; with the exact name
absent, exactly one fallback glob match is accepted and used, while zero
matches and more than one match both fail with one and the same
`FileNotFoundError` (the ambiguous case is not a distinct error). -/
theorem c5_script_location (files3 files1 files0 files2 : List Str)
    (rd rid m g1 g2 : Str) (rest : List Str)
    (h3c : files3.contains ("generated-".data ++ rid ++ "-orca.script".data) = true)
    (h1c : files1.contains ("generated-".data ++ rid ++ "-orca.script".data) = false)
    (h1m : sortStrs (files1.filter globOrcaMatch) = [m])
    (h0c : files0.contains ("generated-".data ++ rid ++ "-orca.script".data) = false)
    (h0m : files0.filter globOrcaMatch = [])
    (h2c : files2.contains ("generated-".data ++ rid ++ "-orca.script".data) = false)
    (h2m : sortStrs (files2.filter globOrcaMatch) = g1 :: g2 :: rest) :
    locateOrcaScript files3 rd rid =
      .ok (joinPath rd ("generated-".data ++ rid ++ "-orca.script".data)) ∧
    locateOrcaScript files1 rd rid = .ok (joinPath rd m) ∧
    locateOrcaScript files0 rd rid =
      .error (.fileNotFound
        ("Could not locate generated ORCA qsub script in ".data ++ rd)) ∧
    locateOrcaScript files2 rd rid = locateOrcaScript files0 rd rid := by
  refine ⟨?_, ?_, ?_, ?_⟩
  · simp only [locateOrcaScript, h3c]
    simp
  · simp only [locateOrcaScript, h1c, h1m]
    simp
  · simp only [locateOrcaScript, h0c, h0m]
    simp [sortStrs]
  · simp only [locateOrcaScript, h2c, h2m, h0c, h0m]
    simp [sortStrs]

/-- C5 witness: concrete directory listings for all four cases. -/
theorem c5_witness :
    locateOrcaScript ["generated-c-orca.script".data] "rd".data "c".data =
      .ok "rd/generated-c-orca.script".data ∧
    locateOrcaScript ["generated-zz-orca.script".data] "rd".data "c".data =
      .ok "rd/generated-zz-orca.script".data ∧
    locateOrcaScript [] "rd".data "c".data =
      .error (.fileNotFound
        "Could not locate generated ORCA qsub script in rd".data) ∧
    locateOrcaScript
        ["generated-a-orca.script".data, "generated-b-orca.script".data]
        "rd".data "c".data =
      locateOrcaScript [] "rd".data "c".data := by
  have h := c5_script_location
    ["generated-c-orca.script".data] ["generated-zz-orca.script".data] []
    ["generated-a-orca.script".data, "generated-b-orca.script".data]
    "rd".data "c".data "generated-zz-orca.script".data
    "generated-a-orca.script".data "generated-b-orca.script".data []
    (by decide) (by decide) (by decide) (by decide) (by decide) (by decide) (by decide)
  exact h

/-- C5 counterexample: with the exact name absent, two fallback matches and
zero fallback matches produce the very same `FileNotFoundError` value, so
the ambiguous case is not a distinct error from the missing case as the
claim states. -/
theorem c5_counterexample :
    locateOrcaScript
        ["generated-a-orca.script".data, "generated-b-orca.script".data]
        "rd".data "c".data
      = locateOrcaScript [] "rd".data "c".data ∧
    locateOrcaScript [] "rd".data "c".data =
      .error (.fileNotFound
        "Could not locate generated ORCA qsub script in rd".data) := by decide

/-! ## C9: composition-count validation -/

/-- C9: validation accepts exactly the integer pairs summing to 4 — no
non-negativity or range check — and a validated run proceeds into the rest
of `main` unchanged. -/
theorem c9_composition_sum_only :
    (∀ cys his : Int, compositionCheck cys his = .ok () ↔ cys + his = 4) ∧
    (∀ (env : Env) (sd : Str) (args : Args), args.cys + args.his = 4 →
      pipelineMain env sd args = pipelineValidated env sd args) := by
  constructor
  · intro cys his
    unfold compositionCheck
    by_cases h : cys + his = 4
    · simp [h]
    · simp [h]
  · intro env sd args h
    unfold pipelineMain compositionCheck
    simp [h]

/-! ## Concrete environments for the end-to-end scenarios -/

/-- A script directory for the concrete scenarios. -/
def sdW : Str := "/opt/scripts".data

/-- Concrete submit-mode arguments: a directory input, counts 2+2, batch
output root `/work/batch1`. -/
def argsW : Args :=
  { path := "/data/in".data, cys := 2, his := 2, out_dir := "/work/batch1".data,
    H := false, download_destination := "/dl".data, skip_extract := false,
    skip_process_feff := false, skip_prepare_download := false,
    state_file := none, no_submit := false }

/-- A fully healthy environment: two inputs `a.xyz`, `b.xyz` (listed out of
order to exercise the sort), run directories with exactly-named stage-A
scripts, both templates present, `prepare-orca.py` succeeding, and the
`k`-th `qsub` printing `10<k>.headnode`. -/
def envW : Env :=
  { pathExists := fun _ => true,
    pathIsFile := fun _ => false,
    dirListing := fun _ => ["b.xyz".data, "a.xyz".data],
    isDir := fun _ => true,
    runDirListing := fun d => ["generated-".data ++ lastComponent d ++ "-orca.script".data],
    whichOk := fun _ => true,
    corvusTemplate := some "cd [RUN_DIR] && run [RUN_ID] via [PREP_CORVUS]\n".data,
    postTemplate := some "post [BATCH_NAME]: [EXTRACT_CMD]\n".data,
    prepareResult := (0, "prepared\n".data, []),
    qsubResult := fun k => (0, (toString (100 + k)).data ++ ".headnode\n".data, []),
    timeAt := fun t => "T".data ++ (toString t).data }

/-- C9 witness: the negative pair `(-1, 5)` passes validation (sum is 4),
and a concrete validated run proceeds past the check. -/
theorem c9_witness :
    compositionCheck (-1) 5 = .ok () ∧
    pipelineMain envW sdW argsW = pipelineValidated envW sdW argsW :=
  ⟨(c9_composition_sum_only.1 (-1) 5).mpr (by decide),
   c9_composition_sum_only.2 envW sdW argsW (by decide)⟩

/-! ## C10: no uniqueness check on derived identifiers -/

/-- The C10 environment: the input directory holds `a.xyz` and `a_1.xyz`,
whose names derive the same id `a`. -/
def envC10 : Env :=
  { envW with dirListing := fun _ => ["a.xyz".data, "a_1.xyz".data] }

/-- C10: with inputs `a.xyz` and `a_1.xyz` deriving the same id, the run
raises no collision error, processes both files, and produces two
`JobRecord`s with identical `run_id` and `run_dir`. -/
theorem c10_no_uniqueness_check :
    isOkOutcome (pipelineMain envC10 sdW argsW) = true ∧
    (runsOf (pipelineMain envC10 sdW argsW)).length = 2 ∧
    (runsOf (pipelineMain envC10 sdW argsW)).map (fun r => r.run_id) =
      ["a".data, "a".data] ∧
    (runsOf (pipelineMain envC10 sdW argsW)).map (fun r => r.run_dir) =
      ["/work/batch1/a".data, "/work/batch1/a".data] := by decide

/-! ## C2: early-termination points -/

/-- C2 (amended): invalid composition counts terminate the run before any
effect at all; an unresolvable input path (nonexistent, wrong extension, or
empty directory) terminates the run before any file write or submission,
but *after* the `mkdir` of the output root, which is the one filesystem
mutation preceding input discovery. -/
theorem c2_termination_points (env : Env) (sd : Str) (args : Args) (e : PipelineError) :
    (args.cys + args.his ≠ 4 →
      pipelineMain env sd args =
        ([], .error (.systemExit ("ERROR: cys + his must equal 4 (got ".data ++
          intToStr (args.cys + args.his) ++ ")".data)))) ∧
    (args.cys + args.his = 4 →
     (!args.skip_process_feff && !env.whichOk "python".data) = false →
     (!args.no_submit && !env.whichOk "qsub".data) = false →
     (!env.pathExists (joinPath sd "prepare-orca.py".data) ||
      !env.pathExists (joinPath sd "prepare-corvus.py".data)) = false →
     discoverXyz env args.path = .error e →
     pipelineMain env sd args = ([Effect.mkdirParents args.out_dir], .error e)) := by
  constructor
  · intro h
    unfold pipelineMain compositionCheck
    simp [h]
  · intro hsum hpy hqsub hprep hdisc
    have hc : compositionCheck args.cys args.his = .ok () := by
      unfold compositionCheck
      simp [hsum]
    simp only [pipelineMain, hc, pipelineValidated, hpy, hqsub, hprep, hdisc]
    simp

/-- The environment of the unresolvable-path scenario: the input path does
not exist, the prepare scripts do, and the output root does not exist yet
(so its `mkdir` really creates a directory). -/
def envC2 : Env :=
  { envW with
    pathExists := fun p => !(p == "/data/in".data),
    isDir := fun _ => false }

/-- C2 witness: both termination points at concrete inputs — an invalid
composition (2 + 3) stops with an empty trace, and a nonexistent input path
stops right after the output-root `mkdir`. -/
theorem c2_witness :
    pipelineMain envW sdW { argsW with his := 3 } =
      ([], .error (.systemExit ("ERROR: cys + his must equal 4 (got ".data ++
        intToStr ((2 : Int) + 3) ++ ")".data))) ∧
    pipelineMain envC2 sdW argsW =
      ([Effect.mkdirParents argsW.out_dir],
       .error (.fileNotFound ("Path not found: ".data ++ argsW.path))) :=
  ⟨(c2_termination_points envW sdW { argsW with his := 3 }
      (.systemExit [])).1 (by decide),
   (c2_termination_points envC2 sdW argsW
      (.fileNotFound ("Path not found: ".data ++ argsW.path))).2
     (by decide) (by decide) (by decide) (by decide) (by decide)⟩

/-- C2 counterexample: with a nonexistent input path and a not-yet-existing
output root, the run does terminate with an error, but its trace already
contains the directory-creating `mkdir` of the output root — a filesystem
mutation the claim says never happens. -/
theorem c2_counterexample :
    isOkOutcome (pipelineMain envC2 sdW argsW) = false ∧
    envC2.isDir argsW.out_dir = false ∧
    traceOf (pipelineMain envC2 sdW argsW) = [Effect.mkdirParents argsW.out_dir] := by
  decide

/-! ## Success-path specifications of the orchestration steps -/

/-- The effects the plan-only loop leaves per record: the wrapper write and
its chmod, in record order. -/
def wrapperEffects (ct prep : Str) (recs : List JobRecord) : List Effect :=
  recs.foldr
    (fun r acc =>
      Effect.fileWrite r.corvus_wrapper_script
          (corvusWrapperContent ct r.run_dir r.run_id prep) ::
        Effect.chmod r.corvus_wrapper_script 493 :: acc)
    []

/-- Unfolding of `wrapperEffects` on a cons. -/
theorem wrapperEffects_cons (ct prep : Str) (x : JobRecord) (recs : List JobRecord) :
    wrapperEffects ct prep (x :: recs) =
      Effect.fileWrite x.corvus_wrapper_script
          (corvusWrapperContent ct x.run_dir x.run_id prep) ::
        Effect.chmod x.corvus_wrapper_script 493 :: wrapperEffects ct prep recs := rfl

/-- Plan-only wrapper effects contain no scheduler call. -/
theorem qsubCalls_wrapperEffects (ct prep : Str) : ∀ recs : List JobRecord,
    qsubCalls (wrapperEffects ct prep recs) = [] := by
  intro recs
  induction recs with
  | nil => rfl
  | cons r rest ih =>
    rw [wrapperEffects_cons]
    simpa [qsubCalls, qsubView] using ih

/-- Every record's wrapper write and chmod appear in its wrapper effects. -/
theorem mem_wrapperEffects (ct prep : Str) :
    ∀ (recs : List JobRecord) (r : JobRecord), r ∈ recs →
      Effect.fileWrite r.corvus_wrapper_script
          (corvusWrapperContent ct r.run_dir r.run_id prep) ∈
        wrapperEffects ct prep recs ∧
      Effect.chmod r.corvus_wrapper_script 493 ∈ wrapperEffects ct prep recs := by
  intro recs
  induction recs with
  | nil => intro r hr; cases hr
  | cons x rest ih =>
    intro r hr
    rw [wrapperEffects_cons]
    rcases List.mem_cons.mp hr with h | h
    · subst h
      exact ⟨List.mem_cons_self _ _, List.mem_cons_of_mem _ (List.mem_cons_self _ _)⟩
    · have hm := ih r h
      exact ⟨List.mem_cons_of_mem _ (List.mem_cons_of_mem _ hm.1),
             List.mem_cons_of_mem _ (List.mem_cons_of_mem _ hm.2)⟩

/-- What a successful `_submit_job` did: one scheduler call with the script
name, the dependency list and the working directory; the returned id is the
parse of that call's stdout; the call counter advanced by one. -/
theorem submitJob_ok_spec (env : Env) (q : Nat) (script cwd : Str) (deps : List Str)
    (evs : List Effect) (id : Str) (q' : Nat)
    (h : submitJob env q script cwd deps = (evs, .ok (id, q'))) :
    evs = [.qsubCall (lastComponent script) deps cwd] ∧
    parseQsubJobId (env.qsubResult q).2.1 = .ok id ∧ q' = q + 1 := by
  simp only [submitJob] at h
  split at h
  · simp at h
  · split at h
    · simp only [Prod.mk.injEq, Except.ok.injEq] at h
      obtain ⟨hevs, hid, hq⟩ := h
      refine ⟨hevs.symm, ?_, hq.symm⟩
      next heq => rw [heq, hid]
    · simp at h

/-- What one successful loop iteration did, in both modes: the clock
advanced by two; the record's derived paths obey the naming convention; in
plan-only mode the effects are exactly the wrapper write and chmod and both
ids are the sentinel; in submit mode two scheduler calls follow the wrapper
write — stage A with no dependency, then stage B depending on exactly the
id stage A returned — and both recorded ids are the parses of the
respective call's stdout. -/
theorem processItem_ok_spec (env : Env) (args : Args) (sd root prep : Str)
    (ct : Str) (hct : env.corvusTemplate = some ct)
    (t q : Nat) (x : Str) (evs : List Effect) (rcd : JobRecord) (t' q' : Nat)
    (h : processItem env args sd root prep t q x = (evs, .ok (rcd, t', q'))) :
    t' = t + 2 ∧
    rcd.run_dir = joinPath root rcd.run_id ∧
    rcd.corvus_wrapper_script =
      joinPath rcd.run_dir ("generated-".data ++ rcd.run_id ++ "-corvus-wrapper.script".data) ∧
    rcd.orca_submitted_utc = env.timeAt t ∧
    rcd.corvus_submitted_utc = env.timeAt (t + 1) ∧
    (args.no_submit = true →
      q' = q ∧
      evs = [Effect.fileWrite rcd.corvus_wrapper_script
               (corvusWrapperContent ct rcd.run_dir rcd.run_id prep),
             Effect.chmod rcd.corvus_wrapper_script 493] ∧
      rcd.orca_job_id = "NO_SUBMIT".data ∧ rcd.corvus_job_id = "NO_SUBMIT".data) ∧
    (args.no_submit = false →
      q' = q + 2 ∧
      evs = [Effect.fileWrite rcd.corvus_wrapper_script
               (corvusWrapperContent ct rcd.run_dir rcd.run_id prep),
             Effect.chmod rcd.corvus_wrapper_script 493,
             Effect.qsubCall (lastComponent rcd.orca_script) [] rcd.run_dir,
             Effect.qsubCall (lastComponent rcd.corvus_wrapper_script)
               [rcd.orca_job_id] rcd.run_dir] ∧
      parseQsubJobId (env.qsubResult q).2.1 = Except.ok rcd.orca_job_id ∧
      parseQsubJobId (env.qsubResult (q + 1)).2.1 = Except.ok rcd.corvus_job_id) := by
  simp only [processItem, hct, writeCorvusWrapperScript] at h
  split at h
  · simp at h
  · split at h
    · simp at h
    · next orca_script hloc =>
      by_cases hns : args.no_submit
      · rw [if_pos hns] at h
        simp only [Prod.mk.injEq, Except.ok.injEq] at h
        obtain ⟨hevs, hrcd, ht, hq⟩ := h
        subst hrcd
        refine ⟨ht.symm, rfl, rfl, rfl, rfl, fun _ => ⟨hq.symm, hevs.symm, rfl, rfl⟩,
          fun hc => absurd hns (by simp [hc])⟩
      · rw [if_neg hns] at h
        split at h
        · simp at h
        · next evA idA q1 hA =>
          obtain ⟨hevA, hparseA, hq1⟩ := submitJob_ok_spec env q _ _ _ _ _ _ hA
          split at h
          · simp at h
          · next evB idB q2 hB =>
            obtain ⟨hevB, hparseB, hq2⟩ := submitJob_ok_spec env q1 _ _ _ _ _ _ hB
            simp only [Prod.mk.injEq, Except.ok.injEq] at h
            obtain ⟨hevs, hrcd, ht, hq⟩ := h
            subst hrcd
            subst hq1
            refine ⟨ht.symm, rfl, rfl, rfl, rfl,
              fun hc => absurd hc (by simp [hns]), fun _ => ?_⟩
            refine ⟨hq.symm.trans hq2, ?_, hparseA, hparseB⟩
            rw [← hevs, hevA, hevB]
            rfl

/-- Unfolding of `itemQsubPairs` on a cons. -/
theorem itemQsubPairs_cons (r : JobRecord) (rs : List JobRecord) :
    itemQsubPairs (r :: rs) =
      (lastComponent r.orca_script, [], r.run_dir) ::
      (lastComponent r.corvus_wrapper_script, [r.orca_job_id], r.run_dir) ::
      itemQsubPairs rs := rfl

/-- Reindexing a map over `range (n+1)` with step-two offsets. -/
theorem range_map_shift {α : Type} (f : Nat → α) (n k : Nat) :
    (List.range (n + 1)).map (fun i => f (k + 2 * i)) =
      f k :: (List.range n).map (fun i => f (k + 2 + 2 * i)) := by
  rw [List.range_succ_eq_map, List.map_cons, List.map_map]
  have h1 : k + 2 * 0 = k := by omega
  have h2 : ((fun i => f (k + 2 * i)) ∘ fun i => i + 1) =
      fun i => f (k + 2 + 2 * i) := by
    funext i
    show f (k + 2 * (i + 1)) = f (k + 2 + 2 * i)
    congr 1
    omega
  rw [h1, h2]

/-- What the whole successful loop did, in both modes: one record per input
in order; the clock advanced by two per item; in plan-only mode the effects
are exactly the wrapper writes, the scheduler counter is untouched, every
id is the sentinel, and timestamps follow the clock pairwise; in submit
mode the scheduler calls are exactly the per-item A-then-B pairs and each
record's ids are the parses of its own two calls. -/
theorem processItems_ok_spec (env : Env) (args : Args) (sd root prep : Str)
    (ct : Str) (hct : env.corvusTemplate = some ct) :
    ∀ (xs : List Str) (t q : Nat) (evs : List Effect) (recs : List JobRecord)
      (t' q' : Nat),
      processItems env args sd root prep xs t q = (evs, .ok (recs, t', q')) →
      recs.length = xs.length ∧ t' = t + 2 * xs.length ∧
      (args.no_submit = true →
        q' = q ∧
        evs = wrapperEffects ct prep recs ∧
        recs.map (fun r => r.orca_job_id) = List.replicate xs.length "NO_SUBMIT".data ∧
        recs.map (fun r => r.corvus_job_id) = List.replicate xs.length "NO_SUBMIT".data ∧
        recs.map (fun r => r.orca_submitted_utc) =
          (List.range xs.length).map (fun i => env.timeAt (t + 2 * i)) ∧
        recs.map (fun r => r.corvus_submitted_utc) =
          (List.range xs.length).map (fun i => env.timeAt (t + 2 * i + 1))) ∧
      (args.no_submit = false →
        q' = q + 2 * xs.length ∧
        qsubCalls evs = itemQsubPairs recs ∧
        recs.map (fun r => (Except.ok r.orca_job_id : Except PipelineError Str)) =
          (List.range xs.length).map
            (fun i => parseQsubJobId (env.qsubResult (q + 2 * i)).2.1) ∧
        recs.map (fun r => (Except.ok r.corvus_job_id : Except PipelineError Str)) =
          (List.range xs.length).map
            (fun i => parseQsubJobId (env.qsubResult (q + 2 * i + 1)).2.1)) := by
  intro xs
  induction xs with
  | nil =>
    intro t q evs recs t' q' h
    simp only [processItems, Prod.mk.injEq, Except.ok.injEq] at h
    obtain ⟨hevs, hrecs, ht, hq⟩ := h
    subst hevs
    subst hrecs
    subst ht
    subst hq
    simp [wrapperEffects, itemQsubPairs, qsubCalls]
  | cons x rest ih =>
    intro t q evs recs t' q' h
    simp only [processItems] at h
    split at h
    · simp at h
    · next evs1 rcd t1 q1 hitem =>
      split at h
      · simp at h
      · next evs2 rcds t2 q2 hrest =>
        simp only [Prod.mk.injEq, Except.ok.injEq] at h
        obtain ⟨hevs, hrecs, ht', hq'⟩ := h
        subst hevs
        subst hrecs
        subst ht'
        subst hq'
        obtain ⟨ht1, hrd, hcw, hots, hcts, hnsT, hnsF⟩ :=
          processItem_ok_spec env args sd root prep ct hct t q x evs1 rcd t1 q1 hitem
        obtain ⟨hlen, ht2, hrecT, hrecF⟩ := ih t1 q1 evs2 rcds t2 q2 hrest
        subst ht1
        refine ⟨by simp [hlen], by rw [ht2, List.length_cons]; ring, ?_, ?_⟩
        · intro hns
          obtain ⟨hq1, hevs1, hoid, hcid⟩ := hnsT hns
          subst hq1
          obtain ⟨hq2, hevs2, hoids, hcids, hotss, hctss⟩ := hrecT hns
          refine ⟨hq2, ?_, ?_, ?_, ?_, ?_⟩
          · rw [wrapperEffects_cons, hevs1, hevs2]
            rfl
          · simp [List.map_cons, hoid, hoids, hlen, List.replicate_succ]
          · simp [List.map_cons, hcid, hcids, hlen, List.replicate_succ]
          · simp only [List.length_cons]
            rw [List.map_cons, hots, hotss,
              range_map_shift (fun m => env.timeAt m) rest.length t]
          · simp only [List.length_cons]
            rw [List.map_cons, hcts, hctss,
              range_map_shift (fun m => env.timeAt (m + 1)) rest.length t]
        · intro hns
          obtain ⟨hq2, hevs1, hparseA, hparseB⟩ := hnsF hns
          subst hq2
          obtain ⟨hq', hcalls, hoks, hokbs⟩ := hrecF hns
          refine ⟨by rw [hq', List.length_cons]; ring, ?_, ?_, ?_⟩
          · rw [qsubCalls, List.filterMap_append, hevs1, itemQsubPairs_cons]
            show _ ++ qsubCalls evs2 = _
            rw [hcalls]
            rfl
          · simp only [List.length_cons]
            rw [List.map_cons, hoks,
              range_map_shift (fun m => parseQsubJobId (env.qsubResult m).2.1)
                rest.length q, hparseA]
          · simp only [List.length_cons]
            rw [List.map_cons, hokbs,
              range_map_shift (fun m => parseQsubJobId (env.qsubResult (m + 1)).2.1)
                rest.length q, hparseB]

/-- Discovery never returns an empty work list. -/
theorem discoverXyz_ok_ne_nil (env : Env) (p : Str) (xs : List Str)
    (h : discoverXyz env p = .ok xs) : xs ≠ [] := by
  simp only [discoverXyz] at h
  split at h
  · simp at h
  · split at h
    · split at h
      · simp only [Except.ok.injEq] at h
        subst h
        simp
      · simp at h
    · split at h
      · simp at h
      · next hne =>
        simp only [Except.ok.injEq] at h
        subst h
        simp only [ne_eq, List.map_eq_nil_iff]
        intro hnil
        rw [hnil] at hne
        simp at hne

/-- A successful iteration implies the wrapper template was present. -/
theorem processItem_ok_template (env : Env) (args : Args) (sd root prep : Str)
    (t q : Nat) (x : Str) (evs : List Effect) (v : JobRecord × Nat × Nat)
    (h : processItem env args sd root prep t q x = (evs, .ok v)) :
    ∃ ct, env.corvusTemplate = some ct := by
  cases hct : env.corvusTemplate with
  | some ct => exact ⟨ct, rfl⟩
  | none =>
    simp only [processItem, hct, writeCorvusWrapperScript] at h
    split at h
    · simp at h
    · split at h
      · simp at h
      · simp at h

/-- A successful nonempty loop implies the wrapper template was present. -/
theorem processItems_ok_template (env : Env) (args : Args) (sd root prep : Str)
    (x : Str) (xs : List Str) (t q : Nat) (evs : List Effect)
    (v : List JobRecord × Nat × Nat)
    (h : processItems env args sd root prep (x :: xs) t q = (evs, .ok v)) :
    ∃ ct, env.corvusTemplate = some ct := by
  simp only [processItems] at h
  split at h
  · simp at h
  · next evs1 rcd t1 q1 hitem =>
    exact processItem_ok_template env args sd root prep t q x evs1 _ hitem

/-- Everything a successful run of `main` (after validation) did: the input
list was discovered, the upstream preparation succeeded, the loop produced
exactly the persisted records, the fan-in submission (or its plan-only
sentinel) supplied `postprocess_job_id`, the persisted state's fields come
from the arguments, and the effect trace is the `mkdir`, the preparation
subprocess, the loop's effects, the fan-in script write and chmod, the
fan-in submission, and the state-file write, in that order. -/
theorem pipelineValidated_ok_spec (env : Env) (sd : Str) (args : Args)
    (evs : List Effect) (state : BatchState) (sf content : Str)
    (h : pipelineValidated env sd args = (evs, .ok (state, sf, content))) :
    ∃ (xs : List Str) (loopEvs : List Effect) (t q : Nat) (pt : Str)
      (subEvs : List Effect) (post_id : Str),
      discoverXyz env args.path = .ok xs ∧
      env.postTemplate = some pt ∧
      env.prepareResult.1 = 0 ∧
      processItems env args sd args.out_dir (joinPath sd "prepare-corvus.py".data)
        xs 0 0 = (loopEvs, .ok (state.runs, t, q)) ∧
      (args.no_submit = true → subEvs = [] ∧ post_id = "NO_SUBMIT".data) ∧
      (args.no_submit = false →
        submitJob env q (postScriptPath args.out_dir) args.out_dir
          (state.runs.map (fun r => r.corvus_job_id)) = (subEvs, .ok (post_id, q + 1))) ∧
      state.created_utc = env.timeAt t ∧
      state.input_path = args.path ∧
      state.output_root = args.out_dir ∧
      state.download_destination = args.download_destination ∧
      state.cys = args.cys ∧ state.his = args.his ∧ state.h_only = args.H ∧
      state.postprocess_job_id = some post_id ∧
      evs = [Effect.mkdirParents args.out_dir,
             Effect.procRun (prepareOrcaCmd sd args) none] ++ loopEvs ++
            [Effect.fileWrite (postScriptPath args.out_dir)
               (postprocessContent pt sd args.out_dir args.download_destination
                 args.skip_extract args.skip_process_feff args.skip_prepare_download),
             Effect.chmod (postScriptPath args.out_dir) 493] ++ subEvs ++
            [Effect.fileWrite sf content] ∧
      sf = stateFilePath args ∧
      content = serializeState state env.prepareResult.2.1 env.prepareResult.2.2
        ++ ['\n'] := by
  simp only [pipelineValidated] at h
  split at h
  · simp at h
  · split at h
    · simp at h
    · split at h
      · simp at h
      · split at h
        · simp at h
        · next xs hdisc =>
          split at h
          · simp at h
          · next hprep =>
            split at h
            · simp at h
            · next loopEvs records t q hloop =>
              split at h
              · simp at h
              · next postEvs u hpost =>
                cases hpt : env.postTemplate with
                | none =>
                  rw [hpt] at hpost
                  simp [writePostprocessScript] at hpost
                | some pt =>
                  rw [hpt] at hpost
                  simp only [writePostprocessScript, Prod.mk.injEq] at hpost
                  obtain ⟨hpostEvs, -⟩ := hpost
                  by_cases hns : args.no_submit
                  · rw [if_pos hns] at h
                    split at h
                    · simp at h
                    · next subEvs post_id qf hsub =>
                      simp only [Prod.mk.injEq, Except.ok.injEq] at hsub
                      obtain ⟨hsubEvs, hpid, -⟩ := hsub
                      split at h
                      · next hparent =>
                        simp only [Prod.mk.injEq, Except.ok.injEq] at h
                        obtain ⟨hevs, hstate, hsf, hcontent⟩ := h
                        subst hstate
                        subst hsf
                        subst hcontent
                        refine ⟨xs, loopEvs, t, q, pt, subEvs, post_id,
                          hdisc, rfl, by simpa using hprep, hloop,
                          fun _ => ⟨hsubEvs.symm, hpid.symm⟩,
                          fun hc => absurd hns (by simp [hc]),
                          rfl, rfl, rfl, rfl, rfl, rfl, rfl, rfl, ?_, rfl, rfl⟩
                        rw [← hevs, ← hpostEvs]
                      · simp at h
                  · rw [if_neg hns] at h
                    split at h
                    · simp at h
                    · next subEvs post_id qf hsub =>
                      split at h
                      · next hparent =>
                        simp only [Prod.mk.injEq, Except.ok.injEq] at h
                        obtain ⟨hevs, hstate, hsf, hcontent⟩ := h
                        subst hstate
                        subst hsf
                        subst hcontent
                        have hq1 : qf = q + 1 :=
                          (submitJob_ok_spec env q _ _ _ _ _ _ hsub).2.2
                        refine ⟨xs, loopEvs, t, q, pt, subEvs, post_id,
                          hdisc, rfl, by simpa using hprep, hloop,
                          fun hc => absurd hc (by simp [hns]),
                          fun _ => by rw [← hq1]; exact hsub,
                          rfl, rfl, rfl, rfl, rfl, rfl, rfl, rfl, ?_, rfl, rfl⟩
                        rw [← hevs, ← hpostEvs]
                      · simp at h

/-- The records view agrees with the persisted state's `runs` field. -/
theorem runsOf_eq_stateOf_runs
    (r : List Effect × Except PipelineError (BatchState × Str × Str)) :
    runsOf r = (stateOf r).runs := by
  rcases r with ⟨evs, res⟩
  cases res with
  | ok v => rfl
  | error e => rfl

/-- A successful `main` run is a successful validated run, and its result
components are the accessor views. -/
theorem pipelineMain_ok_destruct (env : Env) (sd : Str) (args : Args)
    (hok : isOkOutcome (pipelineMain env sd args) = true) :
    pipelineValidated env sd args =
      (traceOf (pipelineMain env sd args),
       .ok (stateOf (pipelineMain env sd args),
            stateFileOf (pipelineMain env sd args),
            contentOf (pipelineMain env sd args))) := by
  have hpm : pipelineMain env sd args = pipelineValidated env sd args := by
    unfold pipelineMain
    cases hc : compositionCheck args.cys args.his with
    | error e =>
      unfold pipelineMain at hok
      rw [hc] at hok
      simp [isOkOutcome] at hok
    | ok u => rfl
  rw [← hpm]
  rcases hp : pipelineMain env sd args with ⟨evs, res⟩
  cases res with
  | error e =>
    rw [hp] at hok
    simp [isOkOutcome] at hok
  | ok v =>
    obtain ⟨state, sf, content⟩ := v
    rfl

/-! ## C7: plan-only mode -/

/-- C7: with the plan-only flag set, a successful run performs no scheduler
call at all; every job id in the persisted state — stage A, stage B and the
fan-in — is the `NO_SUBMIT` sentinel; submission timestamps are still
recorded from the clock, pairwise per item; and the stage-B wrapper for
every record as well as the fan-in script are still written, each with mode
`0o755`, whose owner-executable bit is set. -/
theorem c7_plan_only (env : Env) (sd : Str) (args : Args) (ct pt : Str)
    (hns : args.no_submit = true)
    (hct : env.corvusTemplate = some ct)
    (hpt : env.postTemplate = some pt)
    (hok : isOkOutcome (pipelineMain env sd args) = true) :
    qsubCalls (traceOf (pipelineMain env sd args)) = [] ∧
    (runsOf (pipelineMain env sd args)).map (fun r => r.orca_job_id) =
      List.replicate (runsOf (pipelineMain env sd args)).length "NO_SUBMIT".data ∧
    (runsOf (pipelineMain env sd args)).map (fun r => r.corvus_job_id) =
      List.replicate (runsOf (pipelineMain env sd args)).length "NO_SUBMIT".data ∧
    (stateOf (pipelineMain env sd args)).postprocess_job_id =
      some "NO_SUBMIT".data ∧
    (runsOf (pipelineMain env sd args)).map (fun r => r.orca_submitted_utc) =
      (List.range (runsOf (pipelineMain env sd args)).length).map
        (fun i => env.timeAt (2 * i)) ∧
    (runsOf (pipelineMain env sd args)).map (fun r => r.corvus_submitted_utc) =
      (List.range (runsOf (pipelineMain env sd args)).length).map
        (fun i => env.timeAt (2 * i + 1)) ∧
    (∀ r ∈ runsOf (pipelineMain env sd args),
      Effect.fileWrite r.corvus_wrapper_script
          (corvusWrapperContent ct r.run_dir r.run_id
            (joinPath sd "prepare-corvus.py".data)) ∈
        traceOf (pipelineMain env sd args) ∧
      Effect.chmod r.corvus_wrapper_script 493 ∈
        traceOf (pipelineMain env sd args)) ∧
    Effect.fileWrite (postScriptPath args.out_dir)
        (postprocessContent pt sd args.out_dir args.download_destination
          args.skip_extract args.skip_process_feff args.skip_prepare_download) ∈
      traceOf (pipelineMain env sd args) ∧
    Effect.chmod (postScriptPath args.out_dir) 493 ∈
      traceOf (pipelineMain env sd args) ∧
    ownerExecutable 493 = true := by
  obtain ⟨xs, loopEvs, t, q, pt', subEvs, post_id, hdisc, hpt', hrc, hloop,
      hsubT, hsubF, hcrea, hip, hor, hdd, hcys, hhis, hhol, hpost, hevs, hsf,
      hcontent⟩ :=
    pipelineValidated_ok_spec env sd args _ _ _ _
      (pipelineMain_ok_destruct env sd args hok)
  rw [hpt] at hpt'
  injection hpt' with hpteq
  subst hpteq
  obtain ⟨hsubEvs, hpid⟩ := hsubT hns
  subst hsubEvs
  subst hpid
  obtain ⟨hlen, ht, hT, -⟩ :=
    processItems_ok_spec env args sd args.out_dir _ ct hct xs 0 0 loopEvs
      (stateOf (pipelineMain env sd args)).runs t q hloop
  obtain ⟨hq, hloopEvs, hoid, hcid, hots, hcts⟩ := hT hns
  subst hloopEvs
  rw [runsOf_eq_stateOf_runs]
  refine ⟨?_, ?_, ?_, hpost, ?_, ?_, ?_, ?_, ?_, by decide⟩
  · rw [hevs]
    simp only [qsubCalls, List.filterMap_append, List.filterMap_cons,
      List.filterMap_nil, qsubView]
    rw [show List.filterMap qsubView
        (wrapperEffects ct (joinPath sd "prepare-corvus.py".data)
          (stateOf (pipelineMain env sd args)).runs) =
      qsubCalls (wrapperEffects ct (joinPath sd "prepare-corvus.py".data)
          (stateOf (pipelineMain env sd args)).runs) from rfl,
      qsubCalls_wrapperEffects]
    simp
  · rw [hoid, hlen]
  · rw [hcid, hlen]
  · rw [hots, hlen]
    simp
  · rw [hcts, hlen]
    simp
  · intro r hr
    have hm := mem_wrapperEffects ct (joinPath sd "prepare-corvus.py".data)
      (stateOf (pipelineMain env sd args)).runs r hr
    rw [hevs]
    exact ⟨List.mem_append_left _ (List.mem_append_left _
        (List.mem_append_left _ (List.mem_append_right _ hm.1))),
      List.mem_append_left _ (List.mem_append_left _
        (List.mem_append_left _ (List.mem_append_right _ hm.2)))⟩
  · rw [hevs]
    refine List.mem_append_left _ (List.mem_append_left _
      (List.mem_append_right _ ?_))
    exact List.mem_cons_self _ _
  · rw [hevs]
    refine List.mem_append_left _ (List.mem_append_left _
      (List.mem_append_right _ ?_))
    exact List.mem_cons_of_mem _ (List.mem_cons_self _ _)

/-- The plan-only arguments for the concrete scenario. -/
def argsP : Args := { argsW with no_submit := true }

/-- C7 witness: the two-item environment in plan-only mode. -/
theorem c7_witness :
    argsP.no_submit = true ∧
    isOkOutcome (pipelineMain envW sdW argsP) = true ∧
    qsubCalls (traceOf (pipelineMain envW sdW argsP)) = [] ∧
    (runsOf (pipelineMain envW sdW argsP)).map (fun r => r.orca_job_id) =
      List.replicate (runsOf (pipelineMain envW sdW argsP)).length
        "NO_SUBMIT".data :=
  ⟨rfl, by decide,
   (c7_plan_only envW sdW argsP
      "cd [RUN_DIR] && run [RUN_ID] via [PREP_CORVUS]\n".data
      "post [BATCH_NAME]: [EXTRACT_CMD]\n".data rfl rfl rfl (by decide)).1,
   (c7_plan_only envW sdW argsP
      "cd [RUN_DIR] && run [RUN_ID] via [PREP_CORVUS]\n".data
      "post [BATCH_NAME]: [EXTRACT_CMD]\n".data rfl rfl rfl (by decide)).2.1⟩

/-! ## C1: submission ordering and dependency wiring -/

/-- C1: in submit mode, a successful run's scheduler calls are exactly, in
order: for each record the stage-A call (no dependency) immediately
followed by the stage-B call in the same run directory depending on exactly
that record's stage-A job id, and then one final fan-in call depending on
the full list of stage-B job ids in record order; moreover the `i`-th
record's stage-A and stage-B ids are the parsed replies of scheduler calls
`2i` and `2i+1`, so stage B is submitted only after stage A returned its
id, and the fan-in call is the last scheduler call of the run. -/
theorem c1_dependency_ordering (env : Env) (sd : Str) (args : Args)
    (hns : args.no_submit = false)
    (hok : isOkOutcome (pipelineMain env sd args) = true) :
    qsubCalls (traceOf (pipelineMain env sd args)) =
      itemQsubPairs (runsOf (pipelineMain env sd args)) ++
        [(lastComponent (postScriptPath args.out_dir),
          (runsOf (pipelineMain env sd args)).map (fun r => r.corvus_job_id),
          args.out_dir)] ∧
    (runsOf (pipelineMain env sd args)).map
        (fun r => (Except.ok r.orca_job_id : Except PipelineError Str)) =
      (List.range (runsOf (pipelineMain env sd args)).length).map
        (fun i => parseQsubJobId (env.qsubResult (2 * i)).2.1) ∧
    (runsOf (pipelineMain env sd args)).map
        (fun r => (Except.ok r.corvus_job_id : Except PipelineError Str)) =
      (List.range (runsOf (pipelineMain env sd args)).length).map
        (fun i => parseQsubJobId (env.qsubResult (2 * i + 1)).2.1) := by
  obtain ⟨xs, loopEvs, t, q, pt, subEvs, post_id, hdisc, hpt, hrc, hloop,
      hsubT, hsubF, hcrea, hip, hor, hdd, hcys, hhis, hhol, hpost, hevs, hsf,
      hcontent⟩ :=
    pipelineValidated_ok_spec env sd args _ _ _ _
      (pipelineMain_ok_destruct env sd args hok)
  obtain ⟨x0, xs', hxs⟩ := List.exists_cons_of_ne_nil
    (discoverXyz_ok_ne_nil env args.path xs hdisc)
  obtain ⟨ct, hct⟩ := processItems_ok_template env args sd args.out_dir _ x0 xs' 0 0
    loopEvs _ (hxs ▸ hloop)
  obtain ⟨hlen, ht, -, hF⟩ :=
    processItems_ok_spec env args sd args.out_dir _ ct hct xs 0 0 loopEvs
      (stateOf (pipelineMain env sd args)).runs t q hloop
  obtain ⟨hq, hcalls, hoks, hokbs⟩ := hF hns
  obtain ⟨hsubEvs, hparseP, -⟩ :=
    submitJob_ok_spec env q _ _ _ _ _ _ (hsubF hns)
  rw [runsOf_eq_stateOf_runs]
  refine ⟨?_, ?_, ?_⟩
  · rw [hevs]
    simp only [qsubCalls, List.filterMap_append, List.filterMap_cons,
      List.filterMap_nil, qsubView, hsubEvs]
    rw [show List.filterMap qsubView loopEvs = qsubCalls loopEvs from rfl, hcalls]
    simp
  · rw [hoks, hlen]
    simp
  · rw [hokbs, hlen]
    simp

/-! ## C6: the state recorder -/

/-- The last element of a list ending in an explicit pair. -/
theorem getLast?_append_pair {α : Type} (l : List α) (a b : α) :
    (l ++ [a, b]).getLast? = some b := by
  rw [show l ++ [a, b] = (l ++ [a]) ++ [b] by simp, List.getLast?_concat]

/-- The serialized state always ends with the closing brace. -/
theorem serializeState_getLast (s : BatchState) (o e : Str) :
    (serializeState s o e).getLast? = some '\x7d' := by
  unfold serializeState
  exact getLast?_append_pair _ _ _

/-- Appending a newline to a text ending in a closing brace yields a text
with exactly one trailing newline. -/
theorem endsOne_append_newline (t : Str) (h : t.getLast? = some '\x7d') :
    endsWithExactlyOneNewline (t ++ ['\n']) = true := by
  unfold endsWithExactlyOneNewline
  rw [List.getLast?_concat, List.dropLast_concat, h]
  decide

/-- C6 (amended): a successful run's final effect is the single state-file
write; the text written is the full serialization of the persisted
`BatchState` — every nested `JobRecord` included through its `runs` field —
together with the captured stdout and stderr of the preparation step, and
it ends with exactly one trailing newline.  The write does **not** create
missing parent directories: the default destination's parent is the output
root created earlier in the same run, and an explicit state-file
destination under a not-yet-existing directory fails instead (see the
counterexample). -/
theorem c6_state_recorder (env : Env) (sd : Str) (args : Args)
    (hok : isOkOutcome (pipelineMain env sd args) = true) :
    contentOf (pipelineMain env sd args) =
      serializeState (stateOf (pipelineMain env sd args))
        env.prepareResult.2.1 env.prepareResult.2.2 ++ ['\n'] ∧
    endsWithExactlyOneNewline (contentOf (pipelineMain env sd args)) = true ∧
    (stateOf (pipelineMain env sd args)).runs = runsOf (pipelineMain env sd args) ∧
    stateFileOf (pipelineMain env sd args) = stateFilePath args ∧
    (traceOf (pipelineMain env sd args)).getLast? =
      some (Effect.fileWrite (stateFileOf (pipelineMain env sd args))
        (contentOf (pipelineMain env sd args))) := by
  obtain ⟨xs, loopEvs, t, q, pt, subEvs, post_id, hdisc, hpt, hrc, hloop,
      hsubT, hsubF, hcrea, hip, hor, hdd, hcys, hhis, hhol, hpost, hevs, hsf,
      hcontent⟩ :=
    pipelineValidated_ok_spec env sd args _ _ _ _
      (pipelineMain_ok_destruct env sd args hok)
  refine ⟨hcontent, ?_, (runsOf_eq_stateOf_runs _).symm, hsf, ?_⟩
  · rw [hcontent]
    exact endsOne_append_newline _ (serializeState_getLast _ _ _)
  · rw [hevs, List.getLast?_concat]

/-- Arguments with an explicit state file under a directory that does not
exist. -/
def argsC6 : Args := { argsW with state_file := some "/elsewhere/state.json".data }

/-- The C6 environment: healthy except that `/elsewhere` (the parent of the
explicit state-file destination) does not exist. -/
def envC6 : Env := { envW with isDir := fun d => !(d == "/elsewhere".data) }

/-- C6 witness: on the healthy run the written state file is the full
serialization with a single trailing newline. -/
theorem c6_witness :
    isOkOutcome (pipelineMain envW sdW argsW) = true ∧
    contentOf (pipelineMain envW sdW argsW) =
      serializeState (stateOf (pipelineMain envW sdW argsW))
        envW.prepareResult.2.1 envW.prepareResult.2.2 ++ ['\n'] ∧
    endsWithExactlyOneNewline (contentOf (pipelineMain envW sdW argsW)) = true :=
  ⟨by decide, (c6_state_recorder envW sdW argsW (by decide)).1,
   (c6_state_recorder envW sdW argsW (by decide)).2.1⟩

/-- C6 counterexample: with `--state-file /elsewhere/state.json` and no
`/elsewhere` directory, the run fails at the state write instead of
creating the parent directory — no directory-creating effect for
`/elsewhere` ever appears in the trace, refuting "creating the
destination's parent directories as needed". -/
theorem c6_counterexample :
    (pipelineMain envC6 sdW argsC6).2 =
      .error (.fileNotFound "No such file or directory: /elsewhere/state.json".data) ∧
    envC6.isDir (parentDir (stateFilePath argsC6)) = false ∧
    (∀ e ∈ traceOf (pipelineMain envC6 sdW argsC6),
      e ≠ Effect.mkdirParents "/elsewhere".data) := by decide

/-- C1 witness: the healthy two-item submit-mode environment, with the five
scheduler calls and their dependencies listed concretely. -/
theorem c1_witness :
    argsW.no_submit = false ∧
    isOkOutcome (pipelineMain envW sdW argsW) = true ∧
    qsubCalls (traceOf (pipelineMain envW sdW argsW)) =
      itemQsubPairs (runsOf (pipelineMain envW sdW argsW)) ++
        [(lastComponent (postScriptPath argsW.out_dir),
          (runsOf (pipelineMain envW sdW argsW)).map (fun r => r.corvus_job_id),
          argsW.out_dir)] ∧
    qsubCalls (traceOf (pipelineMain envW sdW argsW)) =
      [("generated-a-orca.script".data, [], "/work/batch1/a".data),
       ("generated-a-corvus-wrapper.script".data, ["100".data], "/work/batch1/a".data),
       ("generated-b-orca.script".data, [], "/work/batch1/b".data),
       ("generated-b-corvus-wrapper.script".data, ["102".data], "/work/batch1/b".data),
       ("generated-postprocess-batch1.script".data, ["101".data, "103".data],
        "/work/batch1".data)] :=
  ⟨rfl, by decide,
   (c1_dependency_ordering envW sdW argsW rfl (by decide)).1, by decide⟩

end OrcaPipeline
